import Mathlib

/-!
Shallow embedding of the loop-desugaring pass in `compiler/AST/ForLoop.cpp`
(Chapel compiler front end).

The embedding models:
  * the expression trees handed to the factory (`Expr`): named calls
    (`CallExpr` with an `UnresolvedSymExpr`/`SymExpr` base), primitive calls
    (`PRIM_ZIP`, `PRIM_TUPLE_EXPAND`), symbol references, `DefExpr`s used as
    index patterns, and integer literals;
  * the statements emitted into the returned block (`Stmt`) and the
    `ForLoop` AST node itself (`LoopFields`, `ForLoop`);
  * the range fast-path optimizer `tryToReplaceWithDirectRangeIterator`;
  * the factory `doBuildForLoop` and its four public wrappers;
  * the instance methods `copyInner`, `verify`, `codegen`,
    `blockInfoGet`/`blockInfoSet`.

Modelling conventions:
  * the global `fNoOptimizeRangeIteration` switch (read from `driver.h`) is
    threaded as an explicit boolean parameter;
  * `newTemp` produces uniquely named scratch symbols; inside one factory
    invocation only the two temporaries `_indexOfInterest` and `_iterator`
    are created, and they are modelled by their base names;
  * `CallExpr::get(i)` aborts the compiler when the call has fewer than `i`
    actuals, and `AList::only()` aborts unless the list has exactly one
    element.  The operators `chpl_by`, the counting operator and the range
    builders are always constructed by the parser with their full argument
    lists, so those abort paths are unreachable; the model leaves the
    expression unchanged there;
  * symbol flags (`FLAG_EXPR_TEMP`, `FLAG_INDEX_OF_INTEREST`,
    `FLAG_COFORALL_INDEX_VAR`) live on external `Symbol` objects and no
    modelled observation depends on them, so they are not modelled;
  * `INT_FATAL` aborts compilation with an internal (not user-facing)
    diagnostic; it is modelled with `Outcome.internalFatal`, while
    `USR_FATAL` would be `Outcome.userError`.
-/

namespace ChapelForLoop

/-- Primitive tags appearing on primitive `CallExpr`s relevant to this file:
`PRIM_ZIP` (a new-style `zip(...)` iteration source) and `PRIM_TUPLE_EXPAND`
(a `(...t)` tuple-expansion marker). -/
inductive Prim where
  | zip
  | tupleExpand
deriving DecidableEq

/-- Expression trees handed to and produced by the desugaring code.
`call base args` is a `CallExpr` whose base resolves to the name `base`;
`primCall p args` is a primitive `CallExpr` (its `isNamed` is false for
every name); `sym` is a `SymExpr` reference to a named symbol; `defE` is a
`DefExpr` used as an index pattern (such as the elided-index placeholder);
`num` is an integer literal. -/
inductive Expr where
  | call (base : String) (args : List Expr)
  | primCall (p : Prim) (args : List Expr)
  | sym (name : String)
  | defE (name : String)
  | num (n : Nat)

/-- Scalar fields of a `ForLoop` node.  Defaults correspond to the
default constructor `ForLoop::ForLoop()` (all references null, all flags
false, empty metadata), which is the starting point of `copyInner`. -/
structure LoopFields where
  astloc : Nat := 0
  blockTag : Nat := 0
  mIndex : Option String := none
  mIterator : Option String := none
  mZippered : Bool := false
  mLoweredForall : Bool := false
  mIsForExpr : Bool := false
  mOrderIndependent : Bool := false
  mBreakLabel : Option String := none
  mContinueLabel : Option String := none
  userLabel : Option String := none
  mLLVMMetadataList : List String := []
  id : Nat := 0
  blockInfo : Option Expr := none
  useList : Option Expr := none
  byrefVars : Option Expr := none

mutual
/-- Statements appearing in the block built by `doBuildForLoop` and in loop
bodies.  `defVar`/`defLabel` are `DefExpr`s of a `VarSymbol`/`LabelSymbol`;
`move t e` is `CallExpr(PRIM_MOVE, t, e)`; `deferStmt` is a `DeferStmt`;
`typeBlock` is a `BlockStmt(..., BLOCK_TYPE)` wrapper; `destructure` stands
for the statements the external index-pattern destructurer inserts;
`exprStmt` is any other expression statement. -/
inductive Stmt where
  | defVar (name : String)
  | defLabel (name : String)
  | move (target : String) (src : Expr)
  | deferStmt (releaseCall : Expr)
  | typeBlock (s : Stmt)
  | destructure (pat : Expr) (srcIndex : String) (coforall : Bool)
  | exprStmt (e : Expr)
  | forLoop (loop : ForLoop)

/-- The `ForLoop` AST node: scalar fields, the shadow-variable
(task-intent) list, and the body statement list. -/
inductive ForLoop where
  | mk (fields : LoopFields) (shadowVars : List Expr) (body : List Stmt)
end

/-- Scalar fields of a node. -/
def ForLoop.fields : ForLoop → LoopFields
  | .mk f _ _ => f

/-- Shadow-variable list accessor, as `ForLoop::shadowVariables()`. -/
def ForLoop.shadowVariables : ForLoop → List Expr
  | .mk _ s _ => s

/-- Body statement list of a node. -/
def ForLoop.body : ForLoop → List Stmt
  | .mk _ _ b => b

/-- As `ForLoop::indexGet()`: the (possibly null) index reference. -/
def ForLoop.indexGet (fl : ForLoop) : Option String := fl.fields.mIndex

/-- As `ForLoop::iteratorGet()`: the (possibly null) iterator-handle
reference. -/
def ForLoop.iteratorGet (fl : ForLoop) : Option String := fl.fields.mIterator

/-- As `ForLoop::zipperedGet()`. -/
def ForLoop.zipperedGet (fl : ForLoop) : Bool := fl.fields.mZippered

/-- As `ForLoop::isLoweredForallLoop()`. -/
def ForLoop.isLoweredForallLoop (fl : ForLoop) : Bool := fl.fields.mLoweredForall

/-- As `ForLoop::isForExpr()`. -/
def ForLoop.isForExprGet (fl : ForLoop) : Bool := fl.fields.mIsForExpr

/-- Result of running a piece of compiler code: normal completion,
an `INT_FATAL` internal abort, or a `USR_FATAL` user-facing error. -/
inductive Outcome (α : Type) where
  | ok (a : α)
  | internalFatal (msg : String)
  | userError (msg : String)

/-- Whether an outcome is an internal fatal abort. -/
def Outcome.isFatal {α : Type} : Outcome α → Bool
  | .internalFatal _ => true
  | _ => false

/-! ## The range fast-path optimizer -/

/-- Common tail of `tryToReplaceWithDirectRangeIterator` (ForLoop.cpp:112-163)
after the `(range, stride, count)` triple has been extracted: checks whether
`range` is one of the two range builders and performs the matching in-place
replacement, returning the original expression otherwise.  `rbase`/`rargs`
are the base name and actuals of the candidate range-builder call; `orig` is
the whole iterator expression being (possibly) replaced. -/
def directRangeReplacement (rbase : String) (rargs : List Expr)
    (stride count : Option Expr) (orig : Expr) : Expr :=
  let fullyBounded := rbase == "chpl_build_bounded_range"
  let lowBounded := rbase == "chpl_build_low_bounded_range"
  if !fullyBounded && !lowBounded then orig
  else if stride.isNone && count.isNone && fullyBounded then
    match rargs with
    | lo :: hi :: _ => .call "chpl_direct_range_iter" [lo, hi]
    | _ => orig
  else if stride.isSome && count.isNone && fullyBounded then
    match stride, rargs with
    | some s, lo :: hi :: _ => .call "chpl_direct_strided_range_iter" [lo, hi, s]
    | _, _ => orig
  else if stride.isNone && count.isSome && lowBounded then
    match count, rargs with
    | some c, lo :: _ => .call "chpl_direct_counted_range_iter" [lo, c]
    | _, _ => orig
  else orig

/-- The optimizer `tryToReplaceWithDirectRangeIterator` (ForLoop.cpp:79-165).
The global switch `fNoOptimizeRangeIteration` is passed explicitly.  A
strided source `chpl_by(r, s)` contributes `stride := s`, a counted source
`#(r, c)` contributes `count := c`; otherwise the call itself is the
candidate range.  Non-`CallExpr` inputs (and primitive calls, for which
`isNamed` is always false and which never carry a range-builder name) are
returned unchanged. -/
def tryToReplaceWithDirectRangeIterator (fNoOptimizeRangeIteration : Bool)
    (iteratorExpr : Expr) : Expr :=
  if fNoOptimizeRangeIteration then iteratorExpr
  else
    match iteratorExpr with
    | .call base args =>
      if base == "chpl_by" then
        match args with
        | r :: s :: _ =>
          match r with
          | .call rb ra => directRangeReplacement rb ra (some s) none (.call base args)
          | _ => .call base args
        | _ => .call base args
      else if base == "#" then
        match args with
        | r :: c :: _ =>
          match r with
          | .call rb ra => directRangeReplacement rb ra none (some c) (.call base args)
          | _ => .call base args
        | _ => .call base args
      else
        directRangeReplacement base args none none (.call base args)
    | e => e

/-- Recognizer for the iterator-expression shapes that
`tryToReplaceWithDirectRangeIterator` actually replaces (matching on the
callee names and the argument positions the code reads). -/
def directIterShape : Expr → Bool
  | .call "chpl_by" (.call "chpl_build_bounded_range" (_ :: _ :: _) :: _ :: _) => true
  | .call "#" (.call "chpl_build_low_bounded_range" (_ :: _) :: _ :: _) => true
  | .call "chpl_build_bounded_range" (_ :: _ :: _) => true
  | _ => false

/-- Recognizer written from the claim text for C2: the three replaced
shapes with their exact literal arities (`chpl_build_bounded_range(low,
high)`, `chpl_by(chpl_build_bounded_range(low, high), stride)`,
`#(chpl_build_low_bounded_range(low), count)`). -/
def claimedDirectIterShape : Expr → Bool
  | .call "chpl_by" [.call "chpl_build_bounded_range" [_, _], _] => true
  | .call "#" [.call "chpl_build_low_bounded_range" [_], _] => true
  | .call "chpl_build_bounded_range" [_, _] => true
  | _ => false

/-! ## The factory `doBuildForLoop` and its wrappers -/

/-- In-place rewriting of the actuals of an old-style zippered source
(ForLoop.cpp:274-278): when the source is a call to `_build_tuple`
(`astrBuildTuple`), the optimizer is applied to each actual in order; any
other source is left alone. -/
def oldStyleZipActuals (noOpt : Bool) : Expr → Expr
  | .call "_build_tuple" args =>
      .call "_build_tuple" (args.map (tryToReplaceWithDirectRangeIterator noOpt))
  | e => e

/-- The expression whose value is moved into the `_iterator` temporary by
`doBuildForLoop` (the right-hand side of `iterInit`, ForLoop.cpp:204-279).

Unzippered: `_getIterator(iteratorExpr)` with the optimizer applied to the
source in place.  Zippered with a `PRIM_ZIP` marker: the marker call is
rewritten in place — a single tuple-expansion argument `(...t)` unwraps to
`_getIteratorZip(t)`; a single plain argument becomes
`_getIterator(optimized arg)`; otherwise every argument `a` is replaced by
`_getIterator(optimized copy of a)` under a `_build_tuple` base.  (With a
single `PRIM_TUPLE_EXPAND` argument holding other than one actual the
source's `AList::only()` would abort; the parser always builds the marker
with exactly one actual, and the model treats the other arities like a
plain argument.)  Zippered without the marker (old style): the whole source
is wrapped in one `_getIteratorZip` call, with `oldStyleZipActuals`
optimizing the actuals of a `_build_tuple` source in place. -/
def iterInitSource (noOpt : Bool) (zippered : Bool) (iteratorExpr : Expr) : Expr :=
  if zippered = false then
    .call "_getIterator" [tryToReplaceWithDirectRangeIterator noOpt iteratorExpr]
  else
    match iteratorExpr with
    | .primCall .zip zipArgs =>
      match zipArgs with
      | [zipArg] =>
        match zipArg with
        | .primCall .tupleExpand [tupleArg] => .call "_getIteratorZip" [tupleArg]
        | _ =>
            .call "_getIterator" [tryToReplaceWithDirectRangeIterator noOpt zipArg]
      | args =>
          .call "_build_tuple"
            (args.map fun a =>
              .call "_getIterator" [tryToReplaceWithDirectRangeIterator noOpt a])
    | e => .call "_getIteratorZip" [oldStyleZipActuals noOpt e]

/-- What `doBuildForLoop` hands back to the caller: the returned block, the
`ForLoop` node placed inside it, and the final state of the caller's
intents argument list (its `DefExpr`s are removed one by one, so a supplied
list is empty afterwards). -/
structure BuildResult where
  block : List Stmt
  loop : ForLoop
  intentsAfter : Option (List Expr)

/-- The factory `ForLoop::doBuildForLoop` (ForLoop.cpp:173-321).  The
global `fNoOptimizeRangeIteration` switch is the first parameter; `intents`
is the argument list of the intents call (`none` models a null call).
`checkIndices` (external, `build.cpp`) only validates the index pattern and
is not modelled; `destructureIndices` (external, `build.cpp`) inserts the
index-pattern bindings at the head of the loop body and is modelled by the
opaque `Stmt.destructure` marker. -/
def ForLoop.doBuildForLoop (noOpt : Bool) (indices : Option Expr)
    (iteratorExpr : Expr) (intents : Option (List Expr)) (body : List Stmt)
    (attrs : List String) (coforall : Bool) (zippered : Bool)
    (isLoweredForall : Bool) (isForExpr : Bool) (isForeach : Bool) :
    BuildResult :=
  let indexName := "_indexOfInterest"
  let iterName := "_iterator"
  let iterInit : Stmt := .move iterName (iterInitSource noOpt zippered iteratorExpr)
  let iterMove : Stmt := .move indexName (.call "iteratorIndex" [.sym iterName])
  let indicesExpr : Expr :=
    match indices with
    | some ix => ix
    | none => .defE "chpl__elidedIdx"
  let shadow : List Expr :=
    match intents with
    | some l => l
    | none => []
  let loopBody : List Stmt :=
    Stmt.destructure indicesExpr indexName coforall ::
      body ++ [Stmt.defLabel "_continueLabel"]
  let loop : ForLoop := .mk
    { mIndex := some indexName
      mIterator := some iterName
      mZippered := zippered
      mLoweredForall := isLoweredForall
      mIsForExpr := isForExpr
      mOrderIndependent := isForeach
      mBreakLabel := some "_breakLabel"
      mContinueLabel := some "_continueLabel"
      mLLVMMetadataList := attrs }
    shadow loopBody
  { block :=
      [ Stmt.defVar indexName
      , Stmt.defVar iterName
      , iterInit
      , Stmt.deferStmt (.call "_freeIterator" [.sym iterName])
      , Stmt.typeBlock iterMove
      , Stmt.forLoop loop
      , Stmt.defLabel "_breakLabel" ]
    loop := loop
    intentsAfter := intents.map fun _ => [] }

/-- Entry point `ForLoop::buildForLoop` (ForLoop.cpp:323-339). -/
def ForLoop.buildForLoop (noOpt : Bool) (indices : Option Expr)
    (iteratorExpr : Expr) (body : List Stmt) (zippered : Bool)
    (isForExpr : Bool) (attrs : List String) : BuildResult :=
  ForLoop.doBuildForLoop noOpt indices iteratorExpr none body attrs
    false zippered false isForExpr false

/-- Entry point `ForLoop::buildForeachLoop` (ForLoop.cpp:341-357). -/
def ForLoop.buildForeachLoop (noOpt : Bool) (indices : Option Expr)
    (iteratorExpr : Expr) (intents : Option (List Expr)) (body : List Stmt)
    (zippered : Bool) (isForExpr : Bool) (attrs : List String) : BuildResult :=
  ForLoop.doBuildForLoop noOpt indices iteratorExpr intents body attrs
    false zippered false isForExpr true

/-- Entry point `ForLoop::buildCoforallLoop` (ForLoop.cpp:359-374). -/
def ForLoop.buildCoforallLoop (noOpt : Bool) (indices : Option Expr)
    (iteratorExpr : Expr) (body : List Stmt) (zippered : Bool)
    (attrs : List String) : BuildResult :=
  ForLoop.doBuildForLoop noOpt indices iteratorExpr none body attrs
    true zippered false false false

/-- Entry point `ForLoop::buildLoweredForallLoop` (ForLoop.cpp:377-393). -/
def ForLoop.buildLoweredForallLoop (noOpt : Bool) (indices : Option Expr)
    (iteratorExpr : Expr) (body : List Stmt) (zippered : Bool)
    (isForExpr : Bool) (attrs : List String) : BuildResult :=
  ForLoop.doBuildForLoop noOpt indices iteratorExpr none body attrs
    false zippered true isForExpr true

/-! ## Cloning (`copyInner`) -/

/-- A caller-supplied symbol rename table (`SymbolMap`), as an association
list from old to new symbol names. -/
def SymMap : Type := List (String × String)

/-- Looking a symbol up in a rename table: mapped name when present,
the symbol itself otherwise (the net effect of `update_symbols` on a
`SymExpr` after a map-carrying copy). -/
def applySymMap (m : SymMap) (s : String) : String :=
  match List.lookup s m with
  | some t => t
  | none => s

mutual
/-- Copy of an expression through a rename table (`Expr::copy(map, true)`
followed by the enclosing `update_symbols`): `SymExpr`s are remapped, the
rest of the structure is duplicated.  Fresh-symbol generation for copied
`DefExpr`s is performed by the external temporary-symbol allocator and is
not modelled. -/
def Expr.renameVia (m : SymMap) : Expr → Expr
  | .call b args => .call b (Expr.renameViaList m args)
  | .primCall p args => .primCall p (Expr.renameViaList m args)
  | .sym s => .sym (applySymMap m s)
  | .defE s => .defE s
  | .num n => .num n

/-- Pointwise `Expr.renameVia` over an argument list. -/
def Expr.renameViaList (m : SymMap) : List Expr → List Expr
  | [] => []
  | e :: es => Expr.renameVia m e :: Expr.renameViaList m es
end

mutual
/-- Copy of a statement through a rename table, dispatching to
`ForLoop.copyInner` for nested loop nodes. -/
def Stmt.renameVia (m : SymMap) : Stmt → Stmt
  | .defVar s => .defVar s
  | .defLabel s => .defLabel s
  | .move t e => .move (applySymMap m t) (Expr.renameVia m e)
  | .deferStmt e => .deferStmt (Expr.renameVia m e)
  | .typeBlock s => .typeBlock (Stmt.renameVia m s)
  | .destructure p si cf => .destructure (Expr.renameVia m p) (applySymMap m si) cf
  | .exprStmt e => .exprStmt (Expr.renameVia m e)
  | .forLoop fl => .forLoop (ForLoop.copyInner m fl)

/-- Pointwise `Stmt.renameVia` over a statement list. -/
def Stmt.renameViaList (m : SymMap) : List Stmt → List Stmt
  | [] => []
  | s :: ss => Stmt.renameVia m s :: Stmt.renameViaList m ss

/-- The clone operation `ForLoop::copyInner` (ForLoop.cpp:426-452): starts
from a default-constructed node, copies location, block tag, the break and
continue labels (raw, not remapped — they are `LabelSymbol` pointers), the
order-independence flag, the LLVM metadata list, the index and iterator
references through the rename map, the zippered and for-expression flags,
the user label, and the body; `mLoweredForall` is deliberately not copied
(see the MPF 2020-01-21 comment), and the shadow-variable and legacy list
fields keep their default empty values. -/
def ForLoop.copyInner (m : SymMap) : ForLoop → ForLoop
  | .mk f _ b => .mk
      { astloc := f.astloc
        blockTag := f.blockTag
        mBreakLabel := f.mBreakLabel
        mContinueLabel := f.mContinueLabel
        mOrderIndependent := f.mOrderIndependent
        mLLVMMetadataList := f.mLLVMMetadataList
        mIndex := f.mIndex.map (applySymMap m)
        mIterator := f.mIterator.map (applySymMap m)
        mZippered := f.mZippered
        mIsForExpr := f.mIsForExpr
        userLabel := f.userLabel }
      [] (Stmt.renameViaList m b)
end

/-! ## Instance methods: `verify`, `codegen`, `blockInfoGet`/`blockInfoSet` -/

/-- The structural validator `ForLoop::verify` (ForLoop.cpp:551-569).  The
parent `BlockStmt::verify()` checks generic block invariants outside this
file and is modelled as succeeding; the `ForLoop`-level checks follow the
source order: legacy `blockInfo` slot, index reference, iterator reference,
`useList`, `byrefVars`. -/
def ForLoop.verify (fl : ForLoop) : Outcome Unit :=
  if fl.fields.blockInfo.isSome then
    .internalFatal "ForLoop::verify. blockInfo is not NULL"
  else if fl.fields.mIndex.isNone then
    .internalFatal "ForLoop::verify. index     is NULL"
  else if fl.fields.mIterator.isNone then
    .internalFatal "ForLoop::verify. iterator  is NULL"
  else if fl.fields.useList.isSome then
    .internalFatal "ForLoop::verify. useList   is not NULL"
  else if fl.fields.byrefVars.isSome then
    .internalFatal "ForLoop::verify. byrefVars is not NULL"
  else .ok ()

/-- Code emission `ForLoop::codegen` (ForLoop.cpp:571-578): unconditionally
an internal fatal error, for every node state. -/
def ForLoop.codegen (_fl : ForLoop) : Outcome Unit :=
  .internalFatal "ForLoop::codegen This should be unreachable"

/-- Result of running code that prints diagnostics and then returns:
the printed lines plus the outcome. -/
structure EffectResult (α : Type) where
  printed : List String
  outcome : Outcome α

/-- The deprecated accessor `ForLoop::blockInfoGet` (ForLoop.cpp:528-533):
prints a migration diagnostic carrying the node id via `printf` and returns
the null pointer; it does not abort.  (The `%12d` column padding of the
printf format is elided.) -/
def ForLoop.blockInfoGet (fl : ForLoop) : EffectResult (Option Expr) :=
  { printed :=
      ["Migration: ForLoop " ++ toString fl.fields.id ++
        " Unexpected call to blockInfoGet()"]
    outcome := .ok none }

/-- The deprecated accessor `ForLoop::blockInfoSet` (ForLoop.cpp:535-540):
prints a migration diagnostic carrying the node id and returns the null
pointer; it does not abort and ignores its argument. -/
def ForLoop.blockInfoSet (fl : ForLoop) (_e : Expr) : EffectResult (Option Expr) :=
  { printed :=
      ["Migration: ForLoop " ++ toString fl.fields.id ++
        " Unexpected call to blockInfoSet()"]
    outcome := .ok none }

/-! ## Claim-side checkers for the emitted block layout -/

/-- Declaration of the scratch index (`DefExpr` of `_indexOfInterest`). -/
def isIndexDecl : Stmt → Bool
  | .defVar n => n == "_indexOfInterest"
  | _ => false

/-- Declaration of the scratch sequence handle (`DefExpr` of `_iterator`). -/
def isHandleDecl : Stmt → Bool
  | .defVar n => n == "_iterator"
  | _ => false

/-- The iterator-acquisition statement: a move into the handle temporary. -/
def isAcquire : Stmt → Bool
  | .move t _ => t == "_iterator"
  | _ => false

/-- The deferred release statement. -/
def isDeferredRelease : Stmt → Bool
  | .deferStmt _ => true
  | _ => false

/-- The element-materialization statement: the type-block-wrapped move into
the index temporary. -/
def isMaterialize : Stmt → Bool
  | .typeBlock (.move t _) => t == "_indexOfInterest"
  | _ => false

/-- The loop node itself. -/
def isLoopNode : Stmt → Bool
  | .forLoop _ => true
  | _ => false

/-- The trailing break-label definition. -/
def isBreakLabelDef : Stmt → Bool
  | .defLabel n => n == "_breakLabel"
  | _ => false

/-- Exactly one occurrence of each of the seven items in a block. -/
def blockLayoutCounts (b : List Stmt) : Bool :=
  (b.countP isIndexDecl == 1) && (b.countP isHandleDecl == 1) &&
  (b.countP isAcquire == 1) && (b.countP isDeferredRelease == 1) &&
  (b.countP isMaterialize == 1) && (b.countP isLoopNode == 1) &&
  (b.countP isBreakLabelDef == 1)

/-- The layout asserted by claim C1 literally: exactly one of each item,
with the handle declaration preceding the index declaration, followed by
acquisition, deferred release, materialization, the loop node and the
break label, in that relative order. -/
def c1ClaimedLayout (b : List Stmt) : Bool :=
  blockLayoutCounts b &&
  Nat.blt (b.findIdx isHandleDecl) (b.findIdx isIndexDecl) &&
  Nat.blt (b.findIdx isIndexDecl) (b.findIdx isAcquire) &&
  Nat.blt (b.findIdx isAcquire) (b.findIdx isDeferredRelease) &&
  Nat.blt (b.findIdx isDeferredRelease) (b.findIdx isMaterialize) &&
  Nat.blt (b.findIdx isMaterialize) (b.findIdx isLoopNode) &&
  Nat.blt (b.findIdx isLoopNode) (b.findIdx isBreakLabelDef)

/-- The layout actually emitted: as `c1ClaimedLayout` but with the index
declaration preceding the handle declaration. -/
def c1AmendedLayout (b : List Stmt) : Bool :=
  blockLayoutCounts b &&
  Nat.blt (b.findIdx isIndexDecl) (b.findIdx isHandleDecl) &&
  Nat.blt (b.findIdx isHandleDecl) (b.findIdx isAcquire) &&
  Nat.blt (b.findIdx isAcquire) (b.findIdx isDeferredRelease) &&
  Nat.blt (b.findIdx isDeferredRelease) (b.findIdx isMaterialize) &&
  Nat.blt (b.findIdx isMaterialize) (b.findIdx isLoopNode) &&
  Nat.blt (b.findIdx isLoopNode) (b.findIdx isBreakLabelDef)

/-- Marker test used by the zip-expansion claims: a single
`PRIM_TUPLE_EXPAND` wrapper around one tuple value. -/
def isTupleExpandMarker : Expr → Bool
  | .primCall .tupleExpand [_] => true
  | _ => false

/-- A `PRIM_ZIP` primitive call (the new-style zip marker). -/
def isPrimZipCall : Expr → Bool
  | .primCall .zip _ => true
  | _ => false

/-- A call to the tuple-building primitive function `_build_tuple`. -/
def isBuildTupleCall : Expr → Bool
  | .call b _ => b == "_build_tuple"
  | _ => false

/-! ## Helper lemmas about `directRangeReplacement` -/

/-- When the candidate call is neither range builder, the replacement tail
declines and returns the original expression. -/
theorem drr_not_range (rb : String) (ra : List Expr) (stride count : Option Expr)
    (orig : Expr) (h1 : (rb == "chpl_build_bounded_range") = false)
    (h2 : (rb == "chpl_build_low_bounded_range") = false) :
    directRangeReplacement rb ra stride count orig = orig := by
  unfold directRangeReplacement
  simp [h1, h2]

/-- A strided low-bounded range is not replaced. -/
theorem drr_low_stride (ra : List Expr) (s : Expr) (orig : Expr) :
    directRangeReplacement "chpl_build_low_bounded_range" ra (some s) none orig
      = orig := rfl

/-- A counted fully-bounded range is not replaced. -/
theorem drr_bounded_count (ra : List Expr) (c : Expr) (orig : Expr) :
    directRangeReplacement "chpl_build_bounded_range" ra none (some c) orig
      = orig := rfl

/-- A bare low-bounded range (no stride, no count) is not replaced. -/
theorem drr_low_plain (ra : List Expr) (orig : Expr) :
    directRangeReplacement "chpl_build_low_bounded_range" ra none none orig
      = orig := rfl

/-! ## Claim theorems -/

/-- Claim C1, counterexample: at a concrete call to the public entry point
`buildForLoop`, the emitted block does not satisfy the layout asserted by
the claim, because the handle declaration does not precede the index
declaration (the block declares `_indexOfInterest` first and `_iterator`
second). -/
theorem buildForLoop_claimed_layout_fails :
    c1ClaimedLayout
      (ForLoop.buildForLoop false none (.sym "A") [] false false []).block
      = false := rfl

/-- Claim C1, amended: for every call to any of the loop-construction entry
points (all funneling into `doBuildForLoop`), the returned block contains
exactly one index declaration, one sequence-handle declaration, one
iterator-acquisition statement, one deferred release statement, one
element-materialization statement, the loop node, and a trailing
break-label definition, in that relative order — in particular the index
declaration precedes the handle declaration. -/
theorem doBuildForLoop_block_layout (noOpt : Bool) (indices : Option Expr)
    (e : Expr) (intents : Option (List Expr)) (body : List Stmt)
    (attrs : List String) (cf zp ilf ife ifeach : Bool) :
    c1AmendedLayout
        (ForLoop.doBuildForLoop noOpt indices e intents body attrs
          cf zp ilf ife ifeach).block = true
  ∧ c1AmendedLayout
        (ForLoop.buildForLoop noOpt indices e body zp ife attrs).block = true
  ∧ c1AmendedLayout
        (ForLoop.buildForeachLoop noOpt indices e intents body zp ife attrs).block
        = true
  ∧ c1AmendedLayout
        (ForLoop.buildCoforallLoop noOpt indices e body zp attrs).block = true
  ∧ c1AmendedLayout
        (ForLoop.buildLoweredForallLoop noOpt indices e body zp ife attrs).block
        = true :=
  ⟨rfl, rfl, rfl, rfl, rfl⟩

/-- Claim C2, counterexample: `chpl_build_bounded_range(1, 2, 3)` is none
of the three shapes enumerated by the claim (which have exactly two
arguments each), yet the optimizer does not leave it unmodified — it is
rewritten to `chpl_direct_range_iter(1, 2)`, dropping the extra
argument, because the code matches on the callee name and reads the first
two actuals only. -/
theorem tryToReplace_extra_arg_rewritten :
    claimedDirectIterShape
        (.call "chpl_build_bounded_range" [.num 1, .num 2, .num 3]) = false
  ∧ tryToReplaceWithDirectRangeIterator false
        (.call "chpl_build_bounded_range" [.num 1, .num 2, .num 3])
      ≠ .call "chpl_build_bounded_range" [.num 1, .num 2, .num 3] := by
  refine ⟨rfl, fun h => ?_⟩
  have h2 : Expr.call "chpl_direct_range_iter" [.num 1, .num 2]
      = Expr.call "chpl_build_bounded_range" [.num 1, .num 2, .num 3] := h
  injection h2 with hb ha
  exact absurd hb (by decide)

/-- Claim C2, amended: with optimization enabled the optimizer replaces
exactly the calls matching the three callee-name/argument patterns —
`chpl_build_bounded_range(low, high, ...)` becomes
`chpl_direct_range_iter(low, high)`,
`chpl_by(chpl_build_bounded_range(low, high, ...), stride, ...)` becomes
`chpl_direct_strided_range_iter(low, high, stride)`, and
`#(chpl_build_low_bounded_range(low, ...), count, ...)` becomes
`chpl_direct_counted_range_iter(low, count)`, where actuals beyond the
read positions are dropped — and every expression not matching any of
these patterns (including a counted wrapper around a strided bounded
range, a counted fully-bounded range, a strided low-bounded range, and any
non-call or named-variable source) is left unmodified. -/
theorem tryToReplace_characterization (lo hi s c e : Expr)
    (rest rest1 rest2 : List Expr) (h : directIterShape e = false) :
    tryToReplaceWithDirectRangeIterator false
        (.call "chpl_build_bounded_range" (lo :: hi :: rest)) =
      .call "chpl_direct_range_iter" [lo, hi]
  ∧ tryToReplaceWithDirectRangeIterator false
        (.call "chpl_by"
          (.call "chpl_build_bounded_range" (lo :: hi :: rest1) :: s :: rest2)) =
      .call "chpl_direct_strided_range_iter" [lo, hi, s]
  ∧ tryToReplaceWithDirectRangeIterator false
        (.call "#"
          (.call "chpl_build_low_bounded_range" (lo :: rest1) :: c :: rest2)) =
      .call "chpl_direct_counted_range_iter" [lo, c]
  ∧ tryToReplaceWithDirectRangeIterator false e = e := by
  refine ⟨rfl, rfl, rfl, ?_⟩
  cases e with
  | call base args =>
    unfold tryToReplaceWithDirectRangeIterator
    rw [if_neg (by decide)]
    show (if (base == "chpl_by") = true then _ else _) = _
    by_cases hby : (base == "chpl_by") = true
    · rw [if_pos hby]
      have hb : base = "chpl_by" := eq_of_beq hby
      subst hb
      match args, h with
      | [], _ => rfl
      | [r], _ => rfl
      | (Expr.sym s0) :: s2 :: tail, _ => rfl
      | (Expr.defE s0) :: s2 :: tail, _ => rfl
      | (Expr.num n0) :: s2 :: tail, _ => rfl
      | (Expr.primCall p0 a0) :: s2 :: tail, _ => rfl
      | (Expr.call rb ra) :: s2 :: tail, h =>
        show directRangeReplacement rb ra (some s2) none _ = _
        by_cases hfb : (rb == "chpl_build_bounded_range") = true
        · have hrb : rb = "chpl_build_bounded_range" := eq_of_beq hfb
          subst hrb
          match ra, h with
          | [], _ => rfl
          | [x], _ => rfl
          | lo0 :: hi0 :: t, h => simp [directIterShape] at h
        · by_cases hlb : (rb == "chpl_build_low_bounded_range") = true
          · have hrb : rb = "chpl_build_low_bounded_range" := eq_of_beq hlb
            subst hrb
            exact drr_low_stride ra s2 _
          · exact drr_not_range rb ra _ _ _ (by simpa using hfb) (by simpa using hlb)
    · rw [if_neg hby]
      by_cases hct : (base == "#") = true
      · rw [if_pos hct]
        have hb : base = "#" := eq_of_beq hct
        subst hb
        match args, h with
        | [], _ => rfl
        | [r], _ => rfl
        | (Expr.sym s0) :: c2 :: tail, _ => rfl
        | (Expr.defE s0) :: c2 :: tail, _ => rfl
        | (Expr.num n0) :: c2 :: tail, _ => rfl
        | (Expr.primCall p0 a0) :: c2 :: tail, _ => rfl
        | (Expr.call rb ra) :: c2 :: tail, h =>
          show directRangeReplacement rb ra none (some c2) _ = _
          by_cases hlb : (rb == "chpl_build_low_bounded_range") = true
          · have hrb : rb = "chpl_build_low_bounded_range" := eq_of_beq hlb
            subst hrb
            match ra, h with
            | [], _ => rfl
            | lo0 :: t, h => simp [directIterShape] at h
          · by_cases hfb : (rb == "chpl_build_bounded_range") = true
            · have hrb : rb = "chpl_build_bounded_range" := eq_of_beq hfb
              subst hrb
              exact drr_bounded_count ra c2 _
            · exact drr_not_range rb ra _ _ _ (by simpa using hfb) (by simpa using hlb)
      · rw [if_neg hct]
        show directRangeReplacement base args none none _ = _
        by_cases hfb : (base == "chpl_build_bounded_range") = true
        · have hb : base = "chpl_build_bounded_range" := eq_of_beq hfb
          subst hb
          match args, h with
          | [], _ => rfl
          | [x], _ => rfl
          | lo0 :: hi0 :: t, h => simp [directIterShape] at h
        · by_cases hlb : (base == "chpl_build_low_bounded_range") = true
          · have hb : base = "chpl_build_low_bounded_range" := eq_of_beq hlb
            subst hb
            exact drr_low_plain args _
          · exact drr_not_range base args _ _ _ (by simpa using hfb) (by simpa using hlb)
  | sym s0 => rfl
  | defE s0 => rfl
  | num n0 => rfl
  | primCall p0 a0 => rfl

/-- Witness for `tryToReplace_characterization` at the spec's own examples:
`1..10`, `1..10 by 2`, `1..#10`, and a named range variable `r`. -/
theorem tryToReplace_characterization_witness :
    tryToReplaceWithDirectRangeIterator false
        (.call "chpl_build_bounded_range" [.num 1, .num 10]) =
      .call "chpl_direct_range_iter" [.num 1, .num 10]
  ∧ tryToReplaceWithDirectRangeIterator false
        (.call "chpl_by" [.call "chpl_build_bounded_range" [.num 1, .num 10], .num 2]) =
      .call "chpl_direct_strided_range_iter" [.num 1, .num 10, .num 2]
  ∧ tryToReplaceWithDirectRangeIterator false
        (.call "#" [.call "chpl_build_low_bounded_range" [.num 1], .num 10]) =
      .call "chpl_direct_counted_range_iter" [.num 1, .num 10]
  ∧ tryToReplaceWithDirectRangeIterator false (.sym "r") = .sym "r" :=
  tryToReplace_characterization (.num 1) (.num 10) (.num 2) (.num 10)
    (.sym "r") [] [] [] (by decide)

/-- Claim C3: a `PRIM_ZIP` iteration source handed to `doBuildForLoop` is
expanded so that the acquisition statement (third item of the emitted
block) moves into the handle: for a single plain argument `x`,
`_getIterator` applied to the (per §4.3 optimizer-processed) argument; for
a single tuple-expansion marker wrapping `t`, `_getIteratorZip` applied
directly to `t` with no extra tuple layer; for two or more arguments, a
`_build_tuple` call of `_getIterator` applied to each (optimizer-processed)
argument in left-to-right order. -/
theorem doBuildForLoop_zip_expansion (noOpt : Bool) (indices : Option Expr)
    (intents : Option (List Expr)) (body : List Stmt) (attrs : List String)
    (cf ilf ife ifeach : Bool) (x t a b : Expr) (rest : List Expr)
    (hx : isTupleExpandMarker x = false) :
    (ForLoop.doBuildForLoop noOpt indices (.primCall .zip [x]) intents body
        attrs cf true ilf ife ifeach).block[2]? =
      some (.move "_iterator"
        (.call "_getIterator" [tryToReplaceWithDirectRangeIterator noOpt x]))
  ∧ (ForLoop.doBuildForLoop noOpt indices
        (.primCall .zip [.primCall .tupleExpand [t]]) intents body attrs
        cf true ilf ife ifeach).block[2]? =
      some (.move "_iterator" (.call "_getIteratorZip" [t]))
  ∧ (ForLoop.doBuildForLoop noOpt indices (.primCall .zip (a :: b :: rest))
        intents body attrs cf true ilf ife ifeach).block[2]? =
      some (.move "_iterator" (.call "_build_tuple"
        ((a :: b :: rest).map fun q =>
          .call "_getIterator" [tryToReplaceWithDirectRangeIterator noOpt q]))) := by
  refine ⟨?_, rfl, rfl⟩
  cases x with
  | primCall p pargs =>
    cases p with
    | zip => rfl
    | tupleExpand =>
      match pargs, hx with
      | [], _ => rfl
      | [t1], hx => simp [isTupleExpandMarker] at hx
      | t1 :: t2 :: ts, _ => rfl
  | call b0 a0 => rfl
  | sym s0 => rfl
  | defE s0 => rfl
  | num n0 => rfl

/-- Witness for `doBuildForLoop_zip_expansion`: `zip(X)`, `zip((...T))`,
and `zip(A, B, C)`. -/
theorem doBuildForLoop_zip_expansion_witness :
    (ForLoop.doBuildForLoop false none (.primCall .zip [.sym "X"]) none []
        [] false true false false false).block[2]? =
      some (.move "_iterator" (.call "_getIterator" [.sym "X"]))
  ∧ (ForLoop.doBuildForLoop false none
        (.primCall .zip [.primCall .tupleExpand [.sym "T"]]) none [] []
        false true false false false).block[2]? =
      some (.move "_iterator" (.call "_getIteratorZip" [.sym "T"]))
  ∧ (ForLoop.doBuildForLoop false none
        (.primCall .zip [.sym "A", .sym "B", .sym "C"]) none [] []
        false true false false false).block[2]? =
      some (.move "_iterator" (.call "_build_tuple"
        [ .call "_getIterator" [.sym "A"]
        , .call "_getIterator" [.sym "B"]
        , .call "_getIterator" [.sym "C"] ])) :=
  doBuildForLoop_zip_expansion false none none [] [] false false false false
    (.sym "X") (.sym "T") (.sym "A") (.sym "B") [.sym "C"] (by decide)

/-- Claim C4: the structural validator fails fatally exactly when the index
reference is null, the iterator-handle reference is null, the legacy
block-info slot is non-empty, the use-list is non-empty, or the by-ref-var
list is non-empty; on a well-formed node it returns without error. -/
theorem ForLoop_verify_fatal_iff (fl : ForLoop) :
    ((ForLoop.verify fl).isFatal = true ↔
      (fl.indexGet = none ∨ fl.iteratorGet = none ∨
        fl.fields.blockInfo ≠ none ∨ fl.fields.useList ≠ none ∨
        fl.fields.byrefVars ≠ none))
  ∧ (ForLoop.verify fl = Outcome.ok () ↔
      ¬(fl.indexGet = none ∨ fl.iteratorGet = none ∨
        fl.fields.blockInfo ≠ none ∨ fl.fields.useList ≠ none ∨
        fl.fields.byrefVars ≠ none)) := by
  unfold ForLoop.verify
  split_ifs with h1 h2 h3 h4 h5 <;>
    simp_all [Outcome.isFatal, ForLoop.indexGet, ForLoop.iteratorGet,
      Option.isSome_iff_ne_none, Option.isNone_iff_eq_none]

/-- Claim C5: code emission on the loop node always reports an
unrecoverable internal error — for every node state it yields the
`INT_FATAL` outcome, never a user-facing error and never normal
completion. -/
theorem ForLoop_codegen_always_internal_fatal (fl : ForLoop) :
    ForLoop.codegen fl =
      Outcome.internalFatal "ForLoop::codegen This should be unreachable" := rfl

/-- Claim C6, counterexample: invoking the deprecated block-info accessors
on a concrete node does not abort compilation — both return the null
pointer with a non-fatal outcome, contradicting the claimed fatal,
immediate abort. -/
theorem blockInfo_accessors_not_fatal :
    (ForLoop.blockInfoGet (ForLoop.mk { id := 7 } [] [])).outcome.isFatal = false
  ∧ (ForLoop.blockInfoGet (ForLoop.mk { id := 7 } [] [])).outcome
      = Outcome.ok none
  ∧ (ForLoop.blockInfoSet (ForLoop.mk { id := 7 } [] []) (.sym "x")).outcome.isFatal
      = false
  ∧ (ForLoop.blockInfoSet (ForLoop.mk { id := 7 } [] []) (.sym "x")).outcome
      = Outcome.ok none :=
  ⟨rfl, rfl, rfl, rfl⟩

/-- Claim C6, amended: invoking the deprecated legacy block-info accessors
prints a migration diagnostic identifying the offending node by its id and
returns the null pointer; compilation is not aborted. -/
theorem blockInfo_accessors_migration_diagnostic (fl : ForLoop) (e : Expr) :
    ForLoop.blockInfoGet fl =
      { printed := ["Migration: ForLoop " ++ toString fl.fields.id ++
          " Unexpected call to blockInfoGet()"]
        outcome := .ok none }
  ∧ ForLoop.blockInfoSet fl e =
      { printed := ["Migration: ForLoop " ++ toString fl.fields.id ++
          " Unexpected call to blockInfoSet()"]
        outcome := .ok none } :=
  ⟨rfl, rfl⟩

/-- Claim C7: whenever the global `fNoOptimizeRangeIteration` switch is
set, the optimizer returns every input expression unchanged. -/
theorem tryToReplace_disabled_identity (e : Expr) :
    tryToReplaceWithDirectRangeIterator true e = e := rfl

/-- Claim C8: a legacy zippered source (no `PRIM_ZIP` marker) is wrapped
whole in a single `_getIteratorZip` call; when the source is itself a flat
`_build_tuple` call the optimizer is applied to each of its actuals in
order (inside the unchanged outer call shape), and any other legacy source
is wrapped without modification. -/
theorem doBuildForLoop_old_style_zip (noOpt : Bool) (indices : Option Expr)
    (intents : Option (List Expr)) (body : List Stmt) (attrs : List String)
    (cf ilf ife ifeach : Bool) (args : List Expr) (e : Expr)
    (h1 : isPrimZipCall e = false) (h2 : isBuildTupleCall e = false) :
    (ForLoop.doBuildForLoop noOpt indices (.call "_build_tuple" args) intents
        body attrs cf true ilf ife ifeach).block[2]? =
      some (.move "_iterator" (.call "_getIteratorZip"
        [.call "_build_tuple"
          (args.map (tryToReplaceWithDirectRangeIterator noOpt))]))
  ∧ (ForLoop.doBuildForLoop noOpt indices e intents body attrs cf true ilf
        ife ifeach).block[2]? =
      some (.move "_iterator" (.call "_getIteratorZip" [e])) := by
  refine ⟨rfl, ?_⟩
  cases e with
  | call b0 a0 =>
    show some (Stmt.move "_iterator"
      (.call "_getIteratorZip" [oldStyleZipActuals noOpt (.call b0 a0)])) = _
    unfold oldStyleZipActuals
    by_cases hb : (b0 == "_build_tuple") = true
    · simp [isBuildTupleCall, hb] at h2
    · have hb2 : b0 ≠ "_build_tuple" := by
        intro hh
        subst hh
        simp at hb
      simp [hb2]
  | primCall p a0 =>
    cases p with
    | zip => simp [isPrimZipCall] at h1
    | tupleExpand => rfl
  | sym s0 => rfl
  | defE s0 => rfl
  | num n0 => rfl

/-- Witness for `doBuildForLoop_old_style_zip`: a flat
`_build_tuple(1..10, B)` source (the range actual gets optimized in place)
and a named source `r` (wrapped unchanged). -/
theorem doBuildForLoop_old_style_zip_witness :
    (ForLoop.doBuildForLoop false none
        (.call "_build_tuple"
          [.call "chpl_build_bounded_range" [.num 1, .num 10], .sym "B"])
        none [] [] false true false false false).block[2]? =
      some (.move "_iterator" (.call "_getIteratorZip"
        [.call "_build_tuple"
          [.call "chpl_direct_range_iter" [.num 1, .num 10], .sym "B"]]))
  ∧ (ForLoop.doBuildForLoop false none (.sym "r") none [] [] false true
        false false false).block[2]? =
      some (.move "_iterator" (.call "_getIteratorZip" [.sym "r"])) :=
  doBuildForLoop_old_style_zip false none none [] [] false false false false
    [.call "chpl_build_bounded_range" [.num 1, .num 10], .sym "B"] (.sym "r")
    (by decide) (by decide)

/-- Claim C9: when an intents call is supplied, after construction the loop
node's shadow-variable list is exactly the supplied list of intent
declarations in their original order, and the supplied intents argument
list is left empty (the declarations are moved, not copied). -/
theorem doBuildForLoop_intents_transfer (noOpt : Bool) (indices : Option Expr)
    (e : Expr) (l : List Expr) (body : List Stmt) (attrs : List String)
    (cf zp ilf ife ifeach : Bool) :
    (ForLoop.doBuildForLoop noOpt indices e (some l) body attrs cf zp ilf
        ife ifeach).loop.shadowVariables = l
  ∧ (ForLoop.doBuildForLoop noOpt indices e (some l) body attrs cf zp ilf
        ife ifeach).intentsAfter = some [] :=
  ⟨rfl, rfl⟩

/-- Claim C10: `copyInner` copies the location, block tag, break and
continue labels, order-independence flag, LLVM metadata, zippered flag,
for-expression flag, the index and iterator references through the rename
map, and the whole body — but never the pre-lowered-parallel flag: the
clone's `isLoweredForallLoop` is false for every source node, in
particular for those whose own `isLoweredForallLoop` is true. -/
theorem copyInner_copies_fields_not_loweredForall (m : SymMap) (fl : ForLoop) :
    (ForLoop.copyInner m fl).fields.astloc = fl.fields.astloc
  ∧ (ForLoop.copyInner m fl).fields.blockTag = fl.fields.blockTag
  ∧ (ForLoop.copyInner m fl).fields.mBreakLabel = fl.fields.mBreakLabel
  ∧ (ForLoop.copyInner m fl).fields.mContinueLabel = fl.fields.mContinueLabel
  ∧ (ForLoop.copyInner m fl).fields.mOrderIndependent
      = fl.fields.mOrderIndependent
  ∧ (ForLoop.copyInner m fl).fields.mLLVMMetadataList
      = fl.fields.mLLVMMetadataList
  ∧ (ForLoop.copyInner m fl).zipperedGet = fl.zipperedGet
  ∧ (ForLoop.copyInner m fl).isForExprGet = fl.isForExprGet
  ∧ (ForLoop.copyInner m fl).indexGet = fl.indexGet.map (applySymMap m)
  ∧ (ForLoop.copyInner m fl).iteratorGet = fl.iteratorGet.map (applySymMap m)
  ∧ (ForLoop.copyInner m fl).body = Stmt.renameViaList m fl.body
  ∧ (ForLoop.copyInner m fl).isLoweredForallLoop = false := by
  cases fl
  exact ⟨rfl, rfl, rfl, rfl, rfl, rfl, rfl, rfl, rfl, rfl, rfl, rfl⟩

end ChapelForLoop
